import Mathlib

/-!
Verification development for the elimufiti-backend payment subsystem
(`src/routes/subscriptions.js`): the M-Pesa payment-intent lifecycle,
the provider-callback reconciliation, and the subscription activation
and cancellation routes, shallowly embedded as pure state-transition
functions over an explicit store.

The store mirrors the three relational tables the routes touch:
`payments` (the PaymentIntent records), `subscriptions`, and the
`subscription_status` entitlement flag on `users`.  SQL transactions
are modelled exactly: a unit of work either applies all of its writes
or, when any step fails, leaves the store unchanged (ROLLBACK).
-/

/-- A row of the `payments` table (the PaymentIntent of the spec).
Field order and names follow the columns used by the routes. -/
structure Payment where
  id : Nat
  user_id : Nat
  amount : ℚ
  currency : String
  plan_id : String
  phone_number : String
  status : String
  mpesa_checkout_request_id : Option String
  mpesa_receipt_number : Option String
  transaction_date : Option String
  error_message : Option String
deriving DecidableEq, Repr

/-- A calendar date, for subscription start/end dates. -/
structure Date where
  year : Nat
  month : Nat
  day : Nat
deriving DecidableEq, Repr

/-- A row of the `subscriptions` table.  `created_at` is a monotone
creation counter standing for the row's creation timestamp. -/
structure Subscription where
  id : Nat
  user_id : Nat
  plan : String
  status : String
  start_date : Date
  end_date : Date
  payment_id : Option Nat
  created_at : Nat
deriving DecidableEq, Repr

/-- The slice of a `users` row the payment subsystem touches:
the denormalized entitlement flag `subscription_status`. -/
structure UserRec where
  id : Nat
  subscription_status : String
deriving DecidableEq, Repr

/-- The persistent store shared by all routes. -/
structure Store where
  payments : List Payment
  subscriptions : List Subscription
  users : List UserRec
deriving DecidableEq, Repr

/-- An HTTP response as the routes produce it: status code and the
`success` field of the JSON body. -/
structure HttpResp where
  status : Nat
  success : Bool
deriving DecidableEq, Repr

/-- One `{Name, Value}` entry of the callback metadata item list. -/
structure MetadataItem where
  name : String
  value : String
deriving DecidableEq, Repr

/-- The optional `CallbackMetadata` envelope with its `Item` array. -/
structure Metadata where
  item : List MetadataItem
deriving DecidableEq, Repr

/-- The provider's `stkCallback` notification body. -/
structure StkCallback where
  checkoutRequestID : String
  resultCode : Int
  resultDesc : String
  callbackMetadata : Option Metadata
deriving DecidableEq, Repr

/-- Embeds `items.find(item => item.Name === n)?.Value` from the callback
handler: order-independent lookup-by-name in the metadata item list. -/
def findItem (items : List MetadataItem) (n : String) : Option String :=
  (items.find? fun it => it.name = n).map (·.value)

/-- Leap-year test per the Gregorian rules, as JavaScript `Date` uses. -/
def isLeapYear (y : Nat) : Bool :=
  (y % 4 = 0 && y % 100 ≠ 0) || y % 400 = 0

/-- Number of days of month `m` (1–12) in year `y`. -/
def daysInMonth (y m : Nat) : Nat :=
  if m = 2 then (if isLeapYear y then 29 else 28)
  else if m = 4 ∨ m = 6 ∨ m = 9 ∨ m = 11 then 30
  else 31

/-- The calendar month following month `m` of year `y`. -/
def nextMonth (y m : Nat) : Nat × Nat :=
  if m = 12 then (y + 1, 1) else (y, m + 1)

/-- Embeds `endDate.setMonth(endDate.getMonth() + 1)` from the callback
handler, with JavaScript `Date` semantics: the month is incremented and
the day-of-month is kept; if that day does not exist in the new month,
the excess days spill over into the month after (e.g. Jan 31 → "Feb 31"
→ Mar 3). -/
def addOneMonthJS (d : Date) : Date :=
  let ym := nextMonth d.year d.month
  if d.day ≤ daysInMonth ym.1 ym.2 then ⟨ym.1, ym.2, d.day⟩
  else
    let ym2 := nextMonth ym.1 ym.2
    ⟨ym2.1, ym2.2, d.day - daysInMonth ym.1 ym.2⟩

/-- Modelled from the spec's words "ending one billing interval later
(exactly one calendar month)": conventional calendar-month addition,
which clamps the day-of-month to the length of the target month
(Jan 31 + 1 calendar month = Feb 28).  This definition exists only to
be compared with `addOneMonthJS`, the one taken from the source. -/
def addOneCalendarMonth (d : Date) : Date :=
  let ym := nextMonth d.year d.month
  ⟨ym.1, ym.2, min d.day (daysInMonth ym.1 ym.2)⟩

/-- The three writes of the success-callback unit of work, in source
order: `UPDATE payments`, `INSERT INTO subscriptions`, `UPDATE users`. -/
inductive TxStep where
  | updatePayment
  | insertSubscription
  | updateUser
deriving DecidableEq, Repr

/-- Embeds `UPDATE payments SET mpesa_checkout_request_id = $1 WHERE id = $2`
from the initiate route: an unconditional single-row overwrite, with no
guard on a previously assigned value. -/
def assignCorrelationId (st : Store) (pid : Nat) (cid : String) : Store :=
  { st with payments := st.payments.map fun p =>
      if p.id = pid then { p with mpesa_checkout_request_id := some cid } else p }

/-- Outcome of the outbound provider interaction during initiation:
the access-token fetch fails, or the STK push request is issued and
either succeeds (returning `CheckoutRequestID`/`MerchantRequestID`) or
is rejected. -/
inductive ProviderResult where
  | tokenError (msg : String)
  | pushSuccess (checkoutId merchantId : String)
  | pushError (msg : String)
deriving DecidableEq, Repr

/-- The body of the STK push request the initiate route sends, reduced
to the fields the claims are about. -/
structure StkPushRequest where
  amount : Int
  partyA : String
  phoneNumber : String
  accountReference : String
deriving DecidableEq, Repr

/-- Embeds `Math.round` on the idealized (rational) number line: round half
toward positive infinity, `⌊x + 1/2⌋`. -/
def jsRound (q : ℚ) : Int := ⌊q + 1 / 2⌋

/-- Embeds `POST /mpesa/initiate` (after validation): insert a `pending`
payment row recording the submitted amount unmodified; send the STK
push request whose `Amount` is `Math.round(amount)`; on provider
success store the returned `CheckoutRequestID` via
`assignCorrelationId`; on provider error mark the payment `failed`
with the error text and answer 400.  The returned `Option
StkPushRequest` is the push request that was issued, if any (none when
the token fetch already failed). -/
def mpesaInitiate (st : Store) (userId : Nat) (phone : String) (amount : ℚ)
    (planId : String) (pr : ProviderResult) :
    Store × Option StkPushRequest × HttpResp :=
  let pid := st.payments.length
  let payment : Payment :=
    ⟨pid, userId, amount, "KSH", planId, phone, "pending", none, none, none, none⟩
  let st1 : Store := { st with payments := st.payments ++ [payment] }
  let req : StkPushRequest :=
    ⟨jsRound amount, phone, phone, "ELIMUFITI-" ++ toString pid⟩
  match pr with
  | .tokenError msg =>
      ({ st1 with payments := st1.payments.map fun p =>
          if p.id = pid then { p with status := "failed", error_message := some msg } else p },
       none, ⟨400, false⟩)
  | .pushError msg =>
      ({ st1 with payments := st1.payments.map fun p =>
          if p.id = pid then { p with status := "failed", error_message := some msg } else p },
       some req, ⟨400, false⟩)
  | .pushSuccess cid _ =>
      (assignCorrelationId st1 pid cid, some req, ⟨200, true⟩)

/-- Embeds `POST /mpesa/callback`, parameterized by a failure oracle `fail`
for the three writes of the success-path transaction (to state the
rollback behaviour; the production handler is `handleMpesaCallback`,
where no step fails).  Mirrors the source control flow:

* look up the payment by `CheckoutRequestID`; if absent answer
  404 `{success:false}` and touch nothing;
* on `ResultCode = 0`: reading `.Item` of an absent `CallbackMetadata`
  throws before `BEGIN` (500, nothing written); a missing
  `TransactionDate` item makes `transactionDate.toString()` throw
  inside the transaction, which is rolled back (500, nothing kept);
  otherwise run the unit of work — if any step fails, ROLLBACK leaves
  the store unchanged and the rethrown error yields 500; else the
  payment is set `completed` with the receipt and transaction date
  from the metadata, a fresh `active` subscription row is appended
  (ending one `addOneMonthJS` after `now`), the owner's
  `subscription_status` is set to `active`, and the handler answers
  `{success:true}`;
* on a nonzero `ResultCode`: set the payment `failed` with the
  provider's description (a single statement, no transaction) and
  answer `{success:true}`.

Note the source checks neither branch against the payment's current
`status`: both updates are unguarded.  -/
def mpesaCallback (fail : TxStep → Bool) (now : Date) (st : Store)
    (cb : StkCallback) : Store × HttpResp :=
  match st.payments.find? (fun p =>
      p.mpesa_checkout_request_id = some cb.checkoutRequestID) with
  | none => (st, ⟨404, false⟩)
  | some payment =>
    if cb.resultCode = 0 then
      match cb.callbackMetadata with
      | none => (st, ⟨500, false⟩)
      | some md =>
        let receipt := findItem md.item "MpesaReceiptNumber"
        match findItem md.item "TransactionDate" with
        | none => (st, ⟨500, false⟩)
        | some td =>
          if fail TxStep.updatePayment || fail TxStep.insertSubscription
              || fail TxStep.updateUser then
            (st, ⟨500, false⟩)
          else
            let st1 : Store := { st with payments := st.payments.map fun p =>
                if p.id = payment.id then
                  { p with status := "completed",
                           mpesa_receipt_number := receipt,
                           transaction_date := some td }
                else p }
            let newSub : Subscription :=
              ⟨st.subscriptions.length, payment.user_id, payment.plan_id,
               "active", now, addOneMonthJS now, some payment.id,
               st.subscriptions.length⟩
            let st2 : Store := { st1 with subscriptions := st1.subscriptions ++ [newSub] }
            let st3 : Store := { st2 with users := st2.users.map fun u =>
                if u.id = payment.user_id then { u with subscription_status := "active" }
                else u }
            (st3, ⟨200, true⟩)
    else
      ({ st with payments := st.payments.map fun p =>
          if p.id = payment.id then
            { p with status := "failed", error_message := some cb.resultDesc }
          else p },
       ⟨200, true⟩)

/-- The production callback handler: no write of the unit of work
fails. -/
def handleMpesaCallback (now : Date) (st : Store) (cb : StkCallback) :
    Store × HttpResp :=
  mpesaCallback (fun _ => false) now st cb

/-- The owner's `active` subscriptions, as the cancel route's
`SELECT ... WHERE user_id = $1 AND status = 'active'` returns them. -/
def activeSubs (st : Store) (userId : Nat) : List Subscription :=
  st.subscriptions.filter fun s => s.user_id = userId && s.status = "active"

/-- Embeds `POST /cancel`: find the owner's most-recently-created `active`
subscription (`ORDER BY created_at DESC LIMIT 1`); if none exists
answer 404 and touch nothing; otherwise, in one transaction, set that
subscription `cancelled` and the owner's `subscription_status` to
`inactive`. -/
def cancelSubscription (st : Store) (userId : Nat) : Store × HttpResp :=
  match (activeSubs st userId).argmax (·.created_at) with
  | none => (st, ⟨404, false⟩)
  | some sub =>
    let st1 : Store := { st with subscriptions := st.subscriptions.map fun s =>
        if s.id = sub.id then { s with status := "cancelled" } else s }
    let st2 : Store := { st1 with users := st1.users.map fun u =>
        if u.id = userId then { u with subscription_status := "inactive" } else u }
    (st2, ⟨200, true⟩)

/-! ### Concrete fixtures

A minimal store reachable from an initiate call: one `pending` payment
with an assigned correlation id, no subscriptions, one user without
entitlement; plus the provider callbacks of the spec's concrete
scenarios B and C. -/

/-- A pending payment intent with correlation id `"CRQ1"`. -/
def p0 : Payment :=
  ⟨0, 7, 1200, "KSH", "premium", "254712345678", "pending", some "CRQ1",
   none, none, none⟩

/-- Base store: the single pending intent `p0`, no subscriptions, one
user without entitlement. -/
def st0 : Store := ⟨[p0], [], [⟨7, "inactive"⟩]⟩

/-- Well-formed success metadata (scenario B of the spec). -/
def md0 : Metadata :=
  ⟨[⟨"MpesaReceiptNumber", "QAX123"⟩, ⟨"TransactionDate", "20250116103000"⟩,
    ⟨"PhoneNumber", "254712345678"⟩]⟩

/-- The success callback for `p0` (ResultCode 0, full metadata). -/
def cbOK : StkCallback := ⟨"CRQ1", 0, "Success", some md0⟩

/-- The failure callback for `p0` (ResultCode 1032, user cancelled). -/
def cbFail : StkCallback := ⟨"CRQ1", 1032, "Request cancelled by user", some md0⟩

/-- A callback whose tracking reference matches no stored intent. -/
def cbUnknown : StkCallback := ⟨"NOPE", 0, "Success", some md0⟩

/-- A success callback with the `CallbackMetadata` envelope absent. -/
def cbNoMeta : StkCallback := ⟨"CRQ1", 0, "Success", none⟩

/-- A success callback whose metadata lacks the `TransactionDate` item. -/
def cbNoDate : StkCallback :=
  ⟨"CRQ1", 0, "Success", some ⟨[⟨"MpesaReceiptNumber", "QAX123"⟩]⟩⟩

/-- A reference processing date. -/
def now0 : Date := ⟨2025, 1, 16⟩

/-! ### Helper lemmas -/

/-- Mapping a function that does not touch the correlation id across
the payments table commutes with the callback handler's
lookup-by-correlation-id. -/
theorem find?_checkout_map (c : String) (f : Payment → Payment)
    (hf : ∀ q, (f q).mpesa_checkout_request_id = q.mpesa_checkout_request_id)
    (l : List Payment) :
    (l.map f).find? (fun q => q.mpesa_checkout_request_id = some c)
      = (l.find? fun q => q.mpesa_checkout_request_id = some c).map f := by
  rw [List.find?_map]
  have h : ((fun q => decide (q.mpesa_checkout_request_id = some c)) ∘ f)
      = fun q : Payment => decide (q.mpesa_checkout_request_id = some c) := by
    funext q
    simp [Function.comp, hf q]
  rw [h]

/-- Shape of the handler's run on a success callback matched to a
stored payment with well-formed metadata, when no transactional step
fails: the matched payment is completed, one subscription row is
appended, the owner's flag is set. -/
theorem handle_success_eq (now : Date) (st : Store) (cb : StkCallback)
    (p : Payment) (md : Metadata) (td : String)
    (hfind : st.payments.find?
      (fun q => q.mpesa_checkout_request_id = some cb.checkoutRequestID) = some p)
    (hrc : cb.resultCode = 0)
    (hmd : cb.callbackMetadata = some md)
    (htd : findItem md.item "TransactionDate" = some td) :
    handleMpesaCallback now st cb =
      ({ payments := st.payments.map fun q =>
          if q.id = p.id then
            { q with status := "completed",
                     mpesa_receipt_number := findItem md.item "MpesaReceiptNumber",
                     transaction_date := some td }
          else q,
         subscriptions := st.subscriptions ++
          [⟨st.subscriptions.length, p.user_id, p.plan_id, "active", now,
            addOneMonthJS now, some p.id, st.subscriptions.length⟩],
         users := st.users.map fun u =>
          if u.id = p.user_id then { u with subscription_status := "active" }
          else u },
       ⟨200, true⟩) := by
  obtain ⟨cid, rc, desc, cmd⟩ := cb
  dsimp only at hrc hmd hfind ⊢
  subst hrc
  subst hmd
  unfold handleMpesaCallback mpesaCallback
  rw [hfind]
  dsimp only
  rw [htd]
  dsimp only
  simp

/-- Shape of the handler's run on a failure callback matched to a
stored payment: a single unguarded status update. -/
theorem handle_failure_eq (now : Date) (st : Store) (cb : StkCallback)
    (p : Payment)
    (hfind : st.payments.find?
      (fun q => q.mpesa_checkout_request_id = some cb.checkoutRequestID) = some p)
    (hrc : cb.resultCode ≠ 0) :
    handleMpesaCallback now st cb =
      ({ st with payments := st.payments.map fun q =>
          if q.id = p.id then
            { q with status := "failed", error_message := some cb.resultDesc }
          else q },
       ⟨200, true⟩) := by
  obtain ⟨cid, rc, desc, cmd⟩ := cb
  dsimp only at hrc hfind ⊢
  unfold handleMpesaCallback mpesaCallback
  rw [hfind]
  dsimp only
  rw [if_neg hrc]

/-! ### Claims -/

/-- Claim C3: if any step of the success-callback unit of work (mark
intent completed, insert Subscription row, set owner's entitlement
flag) fails, the whole unit rolls back: the store is unchanged — the
intent stays `pending`, no Subscription row is inserted for it and the
entitlement flag keeps its value — and the handler reports a
processing failure. -/
theorem callback_unit_of_work_rolls_back (fail : TxStep → Bool) (now : Date)
    (st : Store) (cb : StkCallback) (p : Payment) (md : Metadata) (td : String)
    (hfind : st.payments.find?
      (fun q => q.mpesa_checkout_request_id = some cb.checkoutRequestID) = some p)
    (_hpending : p.status = "pending")
    (hrc : cb.resultCode = 0)
    (hmd : cb.callbackMetadata = some md)
    (htd : findItem md.item "TransactionDate" = some td)
    (hfail : ∃ s, fail s = true) :
    mpesaCallback fail now st cb = (st, ⟨500, false⟩) := by
  obtain ⟨cid, rc, desc, cmd⟩ := cb
  dsimp only at hrc hmd hfind ⊢
  subst hrc
  subst hmd
  unfold mpesaCallback
  rw [hfind]
  dsimp only
  rw [htd]
  dsimp only
  obtain ⟨s, hs⟩ := hfail
  cases s <;> simp [hs]

/-- Claim C3 witness: forcing the subscription-insert step to fail on
the concrete scenario-B callback leaves the base store unchanged and
answers 500. -/
theorem callback_unit_of_work_rolls_back_witness :
    mpesaCallback (fun s => decide (s = TxStep.insertSubscription)) now0 st0 cbOK
      = (st0, ⟨500, false⟩) :=
  callback_unit_of_work_rolls_back (fun s => decide (s = TxStep.insertSubscription))
    now0 st0 cbOK p0 md0 "20250116103000" (by decide) (by decide) rfl rfl
    (by decide) ⟨TxStep.insertSubscription, by decide⟩

/-- Claim C4 counterexample: on a callback whose `CheckoutRequestID`
matches no stored intent the handler does leave the store untouched,
but it answers `404 {success:false}` — not a success acknowledgment as
the claim states. -/
theorem unknown_intent_counterexample :
    (handleMpesaCallback now0 st0 cbUnknown).2 = ⟨404, false⟩ ∧
    (handleMpesaCallback now0 st0 cbUnknown).2.success ≠ true ∧
    (handleMpesaCallback now0 st0 cbUnknown).1 = st0 := by
  decide

/-- Claim C4 (amended): for every callback whose tracking reference
matches no stored intent, the handler performs no state mutation and
responds `404 {success:false}` (a non-success response) to the
provider. -/
theorem unknown_intent_404_no_mutation (now : Date) (st : Store) (cb : StkCallback)
    (hfind : st.payments.find?
      (fun q => q.mpesa_checkout_request_id = some cb.checkoutRequestID) = none) :
    handleMpesaCallback now st cb = (st, ⟨404, false⟩) := by
  unfold handleMpesaCallback mpesaCallback
  rw [hfind]

/-- Claim C4 witness: the unknown-reference callback on the base store. -/
theorem unknown_intent_404_no_mutation_witness :
    handleMpesaCallback now0 st0 cbUnknown = (st0, ⟨404, false⟩) :=
  unknown_intent_404_no_mutation now0 st0 cbUnknown (by decide)

/-- Claim C9: a success callback (ResultCode 0) matched to a stored
intent whose payload lacks the `CallbackMetadata` envelope or the
`TransactionDate` metadata item aborts before committing any write:
the store is unchanged (intent state, subscriptions and entitlement
flag included) and the provider gets a 500 processing-failure
response. -/
theorem malformed_success_callback_no_write (now : Date) (st : Store)
    (cb : StkCallback) (p : Payment)
    (hfind : st.payments.find?
      (fun q => q.mpesa_checkout_request_id = some cb.checkoutRequestID) = some p)
    (hrc : cb.resultCode = 0)
    (hbad : cb.callbackMetadata = none ∨
      ∃ md, cb.callbackMetadata = some md ∧ findItem md.item "TransactionDate" = none) :
    handleMpesaCallback now st cb = (st, ⟨500, false⟩) := by
  obtain ⟨cid, rc, desc, cmd⟩ := cb
  dsimp only at hrc hbad hfind ⊢
  subst hrc
  unfold handleMpesaCallback mpesaCallback
  rw [hfind]
  dsimp only
  rcases hbad with hnone | ⟨md, hmd, htd⟩
  · subst hnone
    rfl
  · subst hmd
    dsimp only
    rw [htd]
    simp

/-- Claim C9 witness: the metadata-free success callback on the base
store changes nothing and yields 500. -/
theorem malformed_success_callback_no_write_witness :
    handleMpesaCallback now0 st0 cbNoMeta = (st0, ⟨500, false⟩) :=
  malformed_success_callback_no_write now0 st0 cbNoMeta p0 (by decide) rfl
    (Or.inl rfl)

/-- The base store after the scenario-B success callback: `p0` is
`completed` with receipt `"QAX123"`, one active subscription exists and
the owner is entitled. -/
def stCompleted : Store := (handleMpesaCallback now0 st0 cbOK).1

/-- The `completed` version of `p0` as it sits in `stCompleted`. -/
def p0completed : Payment :=
  ⟨0, 7, 1200, "KSH", "premium", "254712345678", "completed", some "CRQ1",
   some "QAX123", some "20250116103000", none⟩

/-- Claim C2 counterexample: the intent of the base store reaches the
terminal state `completed` via the scenario-B success callback, and a
subsequently delivered failure callback for the same tracking
reference moves it out of `completed` into `failed` — a transition out
of a terminal state. -/
theorem terminal_state_overwritten_counterexample :
    (handleMpesaCallback now0 st0 cbOK).1.payments.map Payment.status = ["completed"] ∧
    (handleMpesaCallback now0 (handleMpesaCallback now0 st0 cbOK).1 cbFail).1.payments.map
        Payment.status = ["failed"] := by
  decide

/-- Claim C2 (amended): terminal states are not protected — the
failure branch of the callback handler updates the matched intent's
status to `failed` unguarded, so a later failure callback overwrites
an intent that is already `completed` (or `failed`), and the handler
still acknowledges success. -/
theorem terminal_state_not_monotone (now : Date) (st : Store) (cb : StkCallback)
    (p : Payment)
    (hfind : st.payments.find?
      (fun q => q.mpesa_checkout_request_id = some cb.checkoutRequestID) = some p)
    (hrc : cb.resultCode ≠ 0)
    (_hterm : p.status = "completed" ∨ p.status = "failed") :
    { p with status := "failed", error_message := some cb.resultDesc }
        ∈ (handleMpesaCallback now st cb).1.payments ∧
    (handleMpesaCallback now st cb).2 = ⟨200, true⟩ := by
  rw [handle_failure_eq now st cb p hfind hrc]
  refine ⟨?_, rfl⟩
  exact List.mem_map.mpr ⟨p, List.mem_of_find?_eq_some hfind, by simp⟩

/-- Claim C2 witness: the completed store, hit by the scenario-C
failure callback. -/
theorem terminal_state_not_monotone_witness :
    { p0completed with status := "failed", error_message := some cbFail.resultDesc }
      ∈ (handleMpesaCallback now0 stCompleted cbFail).1.payments ∧
    (handleMpesaCallback now0 stCompleted cbFail).2 = ⟨200, true⟩ :=
  terminal_state_not_monotone now0 stCompleted cbFail p0completed (by decide)
    (by decide) (Or.inl rfl)

/-- Claim C5 counterexample: deliver the success callback and then the
failure callback for the same intent; the resulting record is `failed`
with a non-null failure reason and a non-null receipt reference —
refuting the mutual-exclusivity invariant for failed intents. -/
theorem receipt_reason_exclusivity_counterexample :
    (handleMpesaCallback now0 (handleMpesaCallback now0 st0 cbOK).1 cbFail).1.payments.map
        (fun q => (q.status, q.mpesa_receipt_number, q.error_message))
      = [("failed", some "QAX123", some "Request cancelled by user")] := by
  decide

/-- Claim C5 (amended): once state leaves `pending` the field for the
new state is set — the failure branch stores a non-null failure
reason — but the other field is not cleared: the transition leaves the
receipt reference exactly as it was, so a failed intent that was
previously completed keeps its non-null receipt. -/
theorem failed_intent_keeps_receipt (now : Date) (st : Store) (cb : StkCallback)
    (p : Payment)
    (hfind : st.payments.find?
      (fun q => q.mpesa_checkout_request_id = some cb.checkoutRequestID) = some p)
    (hrc : cb.resultCode ≠ 0) :
    ∀ q ∈ st.payments, q.id = p.id →
      ∃ r ∈ (handleMpesaCallback now st cb).1.payments,
        r.status = "failed" ∧ r.error_message = some cb.resultDesc ∧
        r.mpesa_receipt_number = q.mpesa_receipt_number := by
  rw [handle_failure_eq now st cb p hfind hrc]
  intro q hq hid
  refine ⟨{ q with status := "failed", error_message := some cb.resultDesc },
    List.mem_map.mpr ⟨q, hq, by simp [hid]⟩, rfl, rfl, rfl⟩

/-- Claim C5 witness: in the completed store the failure callback
produces a failed record that keeps receipt `"QAX123"`. -/
theorem failed_intent_keeps_receipt_witness :
    ∃ r ∈ (handleMpesaCallback now0 stCompleted cbFail).1.payments,
      r.status = "failed" ∧ r.error_message = some cbFail.resultDesc ∧
      r.mpesa_receipt_number = p0completed.mpesa_receipt_number :=
  failed_intent_keeps_receipt now0 stCompleted cbFail p0completed (by decide)
    (by decide) p0completed (by decide) rfl

/-- Claim C1 counterexample: delivering the identical scenario-B
success callback twice to the handler yields two Subscription rows,
not one, and the second delivery does mutate the store — subscription
activation is performed once per delivery, not once per intent. -/
theorem duplicate_callback_counterexample :
    (handleMpesaCallback now0 (handleMpesaCallback now0 st0 cbOK).1 cbOK).1.subscriptions.length
      = 2 ∧
    (handleMpesaCallback now0 (handleMpesaCallback now0 st0 cbOK).1 cbOK).1
      ≠ (handleMpesaCallback now0 st0 cbOK).1 := by
  decide

/-- Claim C1 (amended): the callback handler has no pending-state
guard, so each delivery of the same success callback re-runs the
activation unit of work: both deliveries are acknowledged with
success and the second appends a second Subscription row (two more
rows than before the first delivery). -/
theorem duplicate_callback_reactivates (now : Date) (st : Store)
    (cb : StkCallback) (p : Payment) (md : Metadata) (td : String)
    (hfind : st.payments.find?
      (fun q => q.mpesa_checkout_request_id = some cb.checkoutRequestID) = some p)
    (hrc : cb.resultCode = 0)
    (hmd : cb.callbackMetadata = some md)
    (htd : findItem md.item "TransactionDate" = some td) :
    (handleMpesaCallback now st cb).2 = ⟨200, true⟩ ∧
    (handleMpesaCallback now (handleMpesaCallback now st cb).1 cb).2 = ⟨200, true⟩ ∧
    (handleMpesaCallback now (handleMpesaCallback now st cb).1 cb).1.subscriptions.length
      = st.subscriptions.length + 2 := by
  have h1 := handle_success_eq now st cb p md td hfind hrc hmd htd
  have hf : ∀ q : Payment,
      ((fun q : Payment => if q.id = p.id then { q with status := "completed", mpesa_receipt_number := findItem md.item "MpesaReceiptNumber", transaction_date := some td } else q) q).mpesa_checkout_request_id
        = q.mpesa_checkout_request_id := by
    intro q
    by_cases h : q.id = p.id <;> simp [h]
  have hfind2 : (handleMpesaCallback now st cb).1.payments.find?
      (fun q => q.mpesa_checkout_request_id = some cb.checkoutRequestID)
      = some { p with status := "completed", mpesa_receipt_number := findItem md.item "MpesaReceiptNumber", transaction_date := some td } := by
    rw [h1]
    dsimp only
    rw [find?_checkout_map cb.checkoutRequestID _ hf st.payments, hfind]
    simp
  have h2 := handle_success_eq now (handleMpesaCallback now st cb).1 cb
    { p with status := "completed", mpesa_receipt_number := findItem md.item "MpesaReceiptNumber", transaction_date := some td }
    md td hfind2 hrc hmd htd
  refine ⟨by rw [h1], by rw [h2], ?_⟩
  rw [h2]
  dsimp only
  rw [h1]
  simp

/-- Claim C1 witness: the concrete double delivery on the base store
acknowledges success twice and ends with two subscription rows. -/
theorem duplicate_callback_reactivates_witness :
    (handleMpesaCallback now0 st0 cbOK).2 = ⟨200, true⟩ ∧
    (handleMpesaCallback now0 (handleMpesaCallback now0 st0 cbOK).1 cbOK).2 = ⟨200, true⟩ ∧
    (handleMpesaCallback now0 (handleMpesaCallback now0 st0 cbOK).1 cbOK).1.subscriptions.length
      = st0.subscriptions.length + 2 :=
  duplicate_callback_reactivates now0 st0 cbOK p0 md0 "20250116103000"
    (by decide) rfl rfl (by decide)

/-- The JavaScript month increment agrees with conventional
calendar-month addition exactly when the start's day-of-month still
exists in the following month; otherwise the two differ (the JS result
spills into the month after). -/
theorem addOneMonthJS_eq_calendar_iff (d : Date) :
    addOneMonthJS d = addOneCalendarMonth d ↔
      d.day ≤ daysInMonth (nextMonth d.year d.month).1 (nextMonth d.year d.month).2 := by
  unfold addOneMonthJS addOneCalendarMonth
  by_cases h : d.day ≤ daysInMonth (nextMonth d.year d.month).1 (nextMonth d.year d.month).2
  · simp [h, min_eq_left h]
  · simp only [h, if_neg h, iff_false]
    have hmin : min d.day (daysInMonth (nextMonth d.year d.month).1 (nextMonth d.year d.month).2)
        = daysInMonth (nextMonth d.year d.month).1 (nextMonth d.year d.month).2 :=
      min_eq_right (le_of_lt (lt_of_not_le h))
    rw [hmin]
    intro heq
    rcases Date.mk.injEq .. ▸ heq with ⟨hy, hm, _⟩
    by_cases h12 : (nextMonth d.year d.month).2 = 12
    · rw [show nextMonth (nextMonth d.year d.month).1 (nextMonth d.year d.month).2
          = ((nextMonth d.year d.month).1 + 1, 1) from by rw [nextMonth, if_pos h12]] at hy
      exact Nat.succ_ne_self _ hy
    · rw [show nextMonth (nextMonth d.year d.month).1 (nextMonth d.year d.month).2
          = ((nextMonth d.year d.month).1, (nextMonth d.year d.month).2 + 1) from by
            rw [nextMonth, if_neg h12]] at hm
      exact Nat.succ_ne_self _ hm

/-- Claim C6 counterexample: a success callback processed on
2025-01-31 creates a subscription ending 2025-03-03 (JavaScript
`setMonth` overflow), whereas start + 1 calendar month is 2025-02-28 —
so `end_date = start + 1 calendar month` fails for this start date. -/
theorem end_date_calendar_month_counterexample :
    (handleMpesaCallback ⟨2025, 1, 31⟩ st0 cbOK).1.subscriptions.map Subscription.end_date
      = [⟨2025, 3, 3⟩] ∧
    addOneCalendarMonth ⟨2025, 1, 31⟩ = ⟨2025, 2, 28⟩ ∧
    (⟨2025, 3, 3⟩ : Date) ≠ ⟨2025, 2, 28⟩ := by
  decide

/-- Claim C6 (amended): the subscription created by the success
callback starts at the processing date and ends at that date advanced
by one month with JavaScript `Date.setMonth` semantics (day-of-month
kept, overflow days spilling into the following month); this equals
start + 1 calendar month precisely when the start's day-of-month is at
most the length of the next month. -/
theorem subscription_end_date_js_month (now : Date) (st : Store)
    (cb : StkCallback) (p : Payment) (md : Metadata) (td : String)
    (hfind : st.payments.find?
      (fun q => q.mpesa_checkout_request_id = some cb.checkoutRequestID) = some p)
    (hrc : cb.resultCode = 0)
    (hmd : cb.callbackMetadata = some md)
    (htd : findItem md.item "TransactionDate" = some td) :
    (∃ s ∈ (handleMpesaCallback now st cb).1.subscriptions,
      s.user_id = p.user_id ∧ s.plan = p.plan_id ∧ s.status = "active" ∧
      s.start_date = now ∧ s.end_date = addOneMonthJS now) ∧
    (addOneMonthJS now = addOneCalendarMonth now ↔
      now.day ≤ daysInMonth (nextMonth now.year now.month).1 (nextMonth now.year now.month).2) := by
  refine ⟨?_, addOneMonthJS_eq_calendar_iff now⟩
  rw [handle_success_eq now st cb p md td hfind hrc hmd htd]
  exact ⟨⟨st.subscriptions.length, p.user_id, p.plan_id, "active", now,
      addOneMonthJS now, some p.id, st.subscriptions.length⟩,
    by simp, rfl, rfl, rfl, rfl, rfl⟩

/-- Claim C6 witness: the scenario-B callback processed on 2025-01-31,
a start date whose day-of-month does not exist in February. -/
theorem subscription_end_date_js_month_witness :
    (∃ s ∈ (handleMpesaCallback ⟨2025, 1, 31⟩ st0 cbOK).1.subscriptions,
      s.user_id = p0.user_id ∧ s.plan = p0.plan_id ∧ s.status = "active" ∧
      s.start_date = (⟨2025, 1, 31⟩ : Date) ∧
      s.end_date = addOneMonthJS ⟨2025, 1, 31⟩) ∧
    (addOneMonthJS ⟨2025, 1, 31⟩ = addOneCalendarMonth ⟨2025, 1, 31⟩ ↔
      (⟨2025, 1, 31⟩ : Date).day ≤
        daysInMonth (nextMonth 2025 1).1 (nextMonth 2025 1).2) :=
  subscription_end_date_js_month ⟨2025, 1, 31⟩ st0 cbOK p0 md0 "20250116103000"
    (by decide) rfl rfl (by decide)

/-- A store whose only payment already carries correlation id `"A"`. -/
def stA : Store :=
  ⟨[⟨0, 7, 1200, "KSH", "premium", "254712345678", "pending", some "A", none,
     none, none⟩], [], [⟨7, "inactive"⟩]⟩

/-- Claim C7 counterexample: the payment of `stA` already has
correlation id `"A"` assigned, yet assigning `"B"` neither fails nor
preserves the stored id — the id is silently overwritten to `"B"`,
refuting both the ConflictError and the never-changes part. -/
theorem assign_correlation_id_counterexample :
    stA.payments.map Payment.mpesa_checkout_request_id = [some "A"] ∧
    (assignCorrelationId stA 0 "B").payments.map Payment.mpesa_checkout_request_id
      = [some "B"] := by
  decide

/-- Claim C7 (amended): assigning the correlation id is an
unconditional single-row overwrite that never fails: whatever value
the matched payment held before (including an already-assigned id),
afterwards it holds the new id; the other tables are untouched and no
ConflictError exists on this path. -/
theorem assign_correlation_id_overwrites (st : Store) (pid : Nat) (cid : String) :
    (∀ q ∈ st.payments, q.id = pid →
      { q with mpesa_checkout_request_id := some cid }
        ∈ (assignCorrelationId st pid cid).payments) ∧
    (assignCorrelationId st pid cid).subscriptions = st.subscriptions ∧
    (assignCorrelationId st pid cid).users = st.users := by
  refine ⟨?_, rfl, rfl⟩
  intro q hq hid
  exact List.mem_map.mpr ⟨q, hq, by simp [hid]⟩

/-- Claim C7 witness: reassigning over `"A"` in `stA` yields the
record holding `"B"`, with subscriptions and users untouched. -/
theorem assign_correlation_id_overwrites_witness :
    { (⟨0, 7, 1200, "KSH", "premium", "254712345678", "pending", some "A", none, none, none⟩ : Payment) with mpesa_checkout_request_id := some "B" }
      ∈ (assignCorrelationId stA 0 "B").payments ∧
    (assignCorrelationId stA 0 "B").subscriptions = stA.subscriptions ∧
    (assignCorrelationId stA 0 "B").users = stA.users :=
  ⟨(assign_correlation_id_overwrites stA 0 "B").1
      ⟨0, 7, 1200, "KSH", "premium", "254712345678", "pending", some "A", none, none, none⟩
      (by decide) rfl,
   (assign_correlation_id_overwrites stA 0 "B").2⟩

/-- Two active subscriptions of the same user, `sub1` created later. -/
def sub0 : Subscription :=
  ⟨0, 7, "premium", "active", ⟨2025, 1, 1⟩, ⟨2025, 2, 1⟩, some 0, 0⟩

/-- The later-created active subscription of user 7. -/
def sub1 : Subscription :=
  ⟨1, 7, "premium", "active", ⟨2025, 2, 1⟩, ⟨2025, 3, 1⟩, some 1, 1⟩

/-- A store where user 7 holds the two active subscriptions. -/
def stSub : Store := ⟨[], [sub0, sub1], [⟨7, "active"⟩]⟩

/-- Claim C8: cancel selects the owner's most-recently-created active
subscription; with none it answers 404 Not-Found and leaves the whole
store (entitlement flag included) untouched; otherwise it atomically
sets exactly that subscription to `cancelled` and the owner's
entitlement flag to `inactive`, and it never modifies any payment
record. -/
theorem cancel_subscription_spec (st : Store) (uid : Nat) :
    (activeSubs st uid = [] → cancelSubscription st uid = (st, ⟨404, false⟩)) ∧
    (∀ sub, (activeSubs st uid).argmax (·.created_at) = some sub →
      sub ∈ st.subscriptions ∧ sub.user_id = uid ∧ sub.status = "active" ∧
      (∀ t ∈ activeSubs st uid, t.created_at ≤ sub.created_at) ∧
      (cancelSubscription st uid).1.payments = st.payments ∧
      (cancelSubscription st uid).1.subscriptions
        = st.subscriptions.map (fun s => if s.id = sub.id then { s with status := "cancelled" } else s) ∧
      (cancelSubscription st uid).1.users
        = st.users.map (fun u => if u.id = uid then { u with subscription_status := "inactive" } else u) ∧
      (cancelSubscription st uid).2 = ⟨200, true⟩) := by
  constructor
  · intro h
    unfold cancelSubscription
    rw [h]
    rfl
  · intro sub hmax
    have hmem : sub ∈ activeSubs st uid := List.argmax_mem hmax
    have hmem2 := List.mem_filter.mp hmem
    have hprops : sub.user_id = uid ∧ sub.status = "active" := by
      have := hmem2.2
      simp only [Bool.and_eq_true, decide_eq_true_eq] at this
      exact this
    have hbound : ∀ t ∈ activeSubs st uid, t.created_at ≤ sub.created_at := by
      intro t ht
      exact List.le_of_mem_argmax ht hmax
    unfold cancelSubscription
    rw [hmax]
    exact ⟨hmem2.1, hprops.1, hprops.2, hbound, rfl, rfl, rfl, rfl⟩

/-- Claim C8 witness: on the empty-subscription base store cancel is a
404 no-op; on `stSub` it picks the later subscription `sub1`, leaves
payments alone and acknowledges success. -/
theorem cancel_subscription_spec_witness :
    cancelSubscription st0 7 = (st0, ⟨404, false⟩) ∧
    sub1 ∈ stSub.subscriptions ∧
    (cancelSubscription stSub 7).1.payments = stSub.payments ∧
    (cancelSubscription stSub 7).1.subscriptions
      = stSub.subscriptions.map (fun s => if s.id = sub1.id then { s with status := "cancelled" } else s) ∧
    (cancelSubscription stSub 7).2 = ⟨200, true⟩ := by
  have h := (cancel_subscription_spec stSub 7).2 sub1 (by decide)
  exact ⟨(cancel_subscription_spec st0 7).1 (by decide), h.1, h.2.2.2.2.1,
    h.2.2.2.2.2.1, h.2.2.2.2.2.2.2⟩

/-- Claim C10: initiate records the caller's submitted amount
unmodified in the payment row but sends `Math.round(amount)` to the
provider's push-payment endpoint; for every non-integer amount the
amount sent (hence charged) differs from the amount recorded. -/
theorem initiate_rounds_amount_for_provider (st : Store) (uid : Nat)
    (phone : String) (amount : ℚ) (planId : String) (cid mid : String) :
    ((mpesaInitiate st uid phone amount planId (.pushSuccess cid mid)).1.payments.getLast?
      = some ⟨st.payments.length, uid, amount, "KSH", planId, phone, "pending", some cid, none, none, none⟩) ∧
    ((mpesaInitiate st uid phone amount planId (.pushSuccess cid mid)).2.1
      = some ⟨jsRound amount, phone, phone, "ELIMUFITI-" ++ toString st.payments.length⟩) ∧
    (amount.den ≠ 1 → (jsRound amount : ℚ) ≠ amount) := by
  refine ⟨?_, rfl, ?_⟩
  · unfold mpesaInitiate assignCorrelationId
    simp
  · intro hden heq
    exact hden (by rw [← heq]; exact Rat.den_intCast _)

/-- Claim C10 witness: initiating with the non-integer amount 3/2
records 3/2 but sends the rounded amount 2 to the provider. -/
theorem initiate_rounds_amount_for_provider_witness :
    ((mpesaInitiate st0 7 "254712345678" (3 / 2) "basic" (.pushSuccess "CRQ9" "MR9")).1.payments.getLast?
      = some ⟨st0.payments.length, 7, 3 / 2, "KSH", "basic", "254712345678", "pending", some "CRQ9", none, none, none⟩) ∧
    ((mpesaInitiate st0 7 "254712345678" (3 / 2) "basic" (.pushSuccess "CRQ9" "MR9")).2.1
      = some ⟨jsRound (3 / 2), "254712345678", "254712345678", "ELIMUFITI-" ++ toString st0.payments.length⟩) ∧
    ((3 / 2 : ℚ).den ≠ 1 ∧ (jsRound (3 / 2) : ℚ) ≠ (3 / 2 : ℚ)) := by
  have h := initiate_rounds_amount_for_provider st0 7 "254712345678" (3 / 2)
    "basic" "CRQ9" "MR9"
  have hden : (3 / 2 : ℚ).den ≠ 1 := by norm_num
  exact ⟨h.1, h.2.1, hden, h.2.2 hden⟩
